import Mathlib

/-
  Verification development for the claude-sonnet-router repository.

  Shallow embedding of:
  - src/chat_service.py  (CustomChatService: generate_chat, _validate_model,
    _map_finish_reason, the pricing property)
  - src/router.py        (SyftLLMRouter dispatch)
  - src/spawn_services.py (CustomServiceManager: _initialize_state,
    spawn_custom_chat, cleanup_services)

  Python floats carrying prices are modelled as Rat; Python exceptions are
  modelled by the inductive PyError and Except; the accounting transaction
  and the single upstream HTTP request are made observable through an event
  trace returned alongside the result.
-/

namespace RouterSpec

/-! ## Data model (schema entities referenced by src/) -/

/-- Message roles used by the source (`Role.USER`, `Role.ASSISTANT`, `Role.SYSTEM`). -/
inductive Role where
  | SYSTEM
  | USER
  | ASSISTANT
deriving DecidableEq, Repr

/-- `role.value.lower()` as used to build the OpenRouter message dicts. -/
def roleLower : Role → String
  | Role.SYSTEM => "system"
  | Role.USER => "user"
  | Role.ASSISTANT => "assistant"

/-- One turn of a conversation. -/
structure Message where
  role : Role
  content : String
deriving DecidableEq, Repr

/-- Finish reasons. `STOP`, `LENGTH`, `CONTENT_FILTER` are the members the
source references in `_map_finish_reason`; `UNSPECIFIED` is modelled from the
spec wording (schema.py is not under src/) so the spec claim about unknown
finish reasons is expressible. -/
inductive FinishReason where
  | STOP
  | LENGTH
  | CONTENT_FILTER
  | UNSPECIFIED
deriving DecidableEq, Repr

/-- Token accounting entity constructed in `generate_chat`. -/
structure ChatUsage where
  prompt_tokens : Int
  completion_tokens : Int
  total_tokens : Int
deriving DecidableEq, Repr

/-- Optional generation tuning. -/
structure GenerationOptions where
  max_tokens : Option Int := none
  temperature : Option Rat := none
  top_p : Option Rat := none
  stop_sequences : Option (List String) := none
deriving DecidableEq, Repr

/-- Normalized result of one chat call. The random `id` field (`uuid4()`) is
nondeterministic and carries no information for any claim, so it is omitted
from the embedding. -/
structure ChatResponse where
  model : String
  message : Message
  finish_reason : Option FinishReason
  usage : ChatUsage
  provider_info : List (String × String)
  cost : Rat
deriving DecidableEq, Repr

/-! ## Provider response (the JSON object `response.json()` returns) -/

/-- The `"usage"` sub-dict of the provider response; each field is `none`
when the corresponding key is missing. -/
structure UsageData where
  prompt_tokens : Option Int := none
  completion_tokens : Option Int := none
  total_tokens : Option Int := none
deriving DecidableEq, Repr

/-- The `"message"` sub-dict of a choice. -/
structure MsgData where
  content : Option String := none
deriving DecidableEq, Repr

/-- One element of the `"choices"` list. -/
structure ChoiceData where
  message : Option MsgData := none
  finish_reason : Option String := none
deriving DecidableEq, Repr

/-- The provider response JSON object. `hasOtherKeys` records whether the
dict holds any key other than `"usage"`/`"choices"`, which matters only for
Python dict truthiness (`if content:`). -/
structure RespData where
  usage : Option UsageData := none
  choices : Option (List ChoiceData) := none
  hasOtherKeys : Bool := false
deriving DecidableEq, Repr

/-- Python truthiness of the response dict: non-empty iff it has any key. -/
def truthyDict (d : RespData) : Bool :=
  d.usage.isSome || d.choices.isSome || d.hasOtherKeys

/-- Python truthiness of an optional string (`None` and `""` are falsy). -/
def truthyStr : Option String → Bool
  | none => false
  | some s => !(s == "")

/-! ## Exceptions -/

/-- Python exceptions that can escape the embedded code.
`paymentRequired` embeds the `ValueError` raised at chat_service.py:180 when
a priced call has no transaction token (the error the spec taxonomy names
`PaymentRequiredError`); `typeError` embeds the `TypeError` that
`self.pricing > 0` raises when the pricing property returned `None`;
`requestException` embeds `requests.exceptions.RequestException`;
`otherException` embeds any other exception from the upstream call. -/
inductive PyError where
  | typeError (msg : String)
  | paymentRequired (msg : String)
  | requestException (msg : String)
  | otherException (msg : String)
deriving DecidableEq, Repr

/-- Message of the `ValueError` raised for a priced call without a token. -/
def tokenRequiredMsg : String :=
  "Transaction token is required for paid services. Please provide a transaction token."

/-- Message of the `TypeError` raised by `self.pricing > 0` when the pricing
property fell through and returned `None`. -/
def pricingNoneTypeErrorMsg : String :=
  "unsupported comparison between NoneType and int"

/-! ## Pricing (the `pricing` property, chat_service.py:236-244) -/

/-- Service types appearing in published metadata. -/
inductive RouterServiceType where
  | CHAT
  | SEARCH
deriving DecidableEq, Repr

/-- One `{service type, price}` entry of the published metadata. -/
structure PricingService where
  type : RouterServiceType
  pricing : Rat
deriving DecidableEq, Repr

/-- The `for service in metadata.services` loop: price of the first entry
with type CHAT, and Python returns `None` (here `none`) if the loop finds no
such entry, because the function body has no final return statement. -/
def findChatPricing : List PricingService → Option Rat
  | [] => none
  | s :: rest =>
    if s.type = RouterServiceType.CHAT then some s.pricing else findChatPricing rest

/-- The `pricing` property. `metadata = none` models a missing metadata file
(`not self.config.metadata_path.exists()`), which returns `0.0`; an existing
file is the list of its service entries. -/
def chat_pricing (metadata : Option (List PricingService)) : Option Rat :=
  match metadata with
  | none => some 0
  | some services => findChatPricing services

/-! ## Model validation and payload construction -/

/-- `self.allowed_models`. -/
def allowed_models : List String := ["deepseek-chat"]

/-- `model_mapping.get(model, model)`. -/
def modelMappingGet (model : String) : String :=
  if model = "deepseek-chat" then "deepseek/deepseek-chat"
  else if model = "deepseek-coder" then "deepseek/deepseek-coder"
  else if model = "deepseek-v3" then "deepseek/deepseek-v3"
  else model

/-- `_validate_model`: unknown models fall back to `"deepseek-chat"` with a
warning, then short names map to full OpenRouter names. -/
def validate_model (model : String) : String :=
  let model := if allowed_models.contains model then model else "deepseek-chat"
  modelMappingGet model

/-- The request payload dict sent to OpenRouter. -/
structure Payload where
  model : String
  messages : List (String × String)
  max_tokens : Int := 1000
  temperature : Option Rat := none
  top_p : Option Rat := none
  stop : Option (List String) := none
  num_predict : Option Int := none
deriving DecidableEq, Repr

/-- Payload construction in `generate_chat` (both options blocks: the first
uses `is not None` for every field, the second overwrites `"temperature"`,
`"top_p"`, sets `"num_predict"` from `max_tokens`, and re-sets `"stop"` only
when `stop_sequences` is truthy, i.e. a non-empty list). -/
def buildPayload (full_model_name : String) (messages : List Message)
    (options : Option GenerationOptions) : Payload :=
  let openrouter_messages := messages.map (fun m => (roleLower m.role, m.content))
  let payload : Payload := { model := full_model_name, messages := openrouter_messages }
  let payload :=
    match options with
    | none => payload
    | some o =>
      let p := payload
      let p := match o.max_tokens with
        | some v => { p with max_tokens := v }
        | none => p
      let p := match o.temperature with
        | some v => { p with temperature := some v }
        | none => p
      let p := match o.top_p with
        | some v => { p with top_p := some v }
        | none => p
      match o.stop_sequences with
        | some v => { p with stop := some v }
        | none => p
  match options with
  | none => payload
  | some o =>
    let p := payload
    let p := match o.temperature with
      | some v => { p with temperature := some v }
      | none => p
    let p := match o.top_p with
      | some v => { p with top_p := some v }
      | none => p
    let p := match o.max_tokens with
      | some v => { p with num_predict := some v }
      | none => p
    match o.stop_sequences with
      | some v => if v ≠ [] then { p with stop := some v } else p
      | none => p

/-! ## Response normalization -/

/-- `_map_finish_reason`: `mapping.get(finish_reason, None)` over the three
known strings; every other string yields `None`. -/
def map_finish_reason (finish_reason : String) : Option FinishReason :=
  if finish_reason = "stop" then some FinishReason.STOP
  else if finish_reason = "length" then some FinishReason.LENGTH
  else if finish_reason = "content_filter" then some FinishReason.CONTENT_FILTER
  else none

/-- The normalization tail of `generate_chat` (chat_service.py:191-227):
usage defaults each missing field to 0, `choices` defaults to `[{}]`, an
empty choices list yields an empty choice dict, message content defaults to
`""`, and the finish reason passes through `_map_finish_reason` only when
the string is truthy. -/
def parseResponse (model : String) (query_cost : Rat) (d : RespData) : ChatResponse :=
  let usage_data := d.usage.getD {}
  let usage : ChatUsage :=
    { prompt_tokens := usage_data.prompt_tokens.getD 0
      completion_tokens := usage_data.completion_tokens.getD 0
      total_tokens := usage_data.total_tokens.getD 0 }
  let choices := d.choices.getD [{}]
  let choice := match choices with
    | [] => ({} : ChoiceData)
    | c :: _ => c
  let message_data := choice.message.getD {}
  let generated_message : Message :=
    { role := Role.ASSISTANT, content := message_data.content.getD "" }
  let finish_reason := match choice.finish_reason with
    | some s => if s = "" then none else map_finish_reason s
    | none => none
  { model := model
    message := generated_message
    finish_reason := finish_reason
    usage := usage
    provider_info := [("provider", "deepseek"), ("model", model)]
    cost := query_cost }

/-! ## generate_chat -/

/-- Observable accounting and network actions of one `generate_chat` run, in
program order: `delegated_transfer` opening a transaction of the given
amount, `payment_txn.confirm()`, and the single `__make_chat_request` HTTP
call. -/
inductive Event where
  | openTxn (amount : Rat)
  | confirmTxn
  | providerCall
deriving DecidableEq, Repr

/-- `generate_chat` (chat_service.py:108-234). `pricing` is the value of the
`self.pricing` property for this call (`none` when the property fell through
and returned `None`); `provider` gives the outcome of `__make_chat_request`
on the payload actually sent. Both `except` clauses re-raise, so exceptions
propagate unchanged. Returns the result together with the event trace. -/
def generate_chat (pricing : Option Rat) (provider : Payload → Except PyError RespData)
    (model : String) (messages : List Message) (user_email : String)
    (transaction_token : Option String) (options : Option GenerationOptions) :
    Except PyError ChatResponse × List Event :=
  let full_model_name := validate_model model
  let payload := buildPayload full_model_name messages options
  match pricing with
  | none =>
    -- `self.pricing > 0` with pricing = None raises TypeError
    (Except.error (PyError.typeError pricingNoneTypeErrorMsg), [])
  | some price =>
    if 0 < price then
      if truthyStr transaction_token then
        match provider payload with
        | Except.error e => (Except.error e, [Event.openTxn price, Event.providerCall])
        | Except.ok content =>
          if truthyDict content then
            (Except.ok (parseResponse model price content),
             [Event.openTxn price, Event.providerCall, Event.confirmTxn])
          else
            (Except.ok (parseResponse model 0 content),
             [Event.openTxn price, Event.providerCall])
      else
        (Except.error (PyError.paymentRequired tokenRequiredMsg), [])
    else
      match provider payload with
      | Except.error e => (Except.error e, [Event.providerCall])
      | Except.ok content => (Except.ok (parseResponse model 0 content), [Event.providerCall])

/-! ## Router (src/router.py) -/

/-- Arguments of `SyftLLMRouter.generate_chat`. -/
structure ChatArgs where
  model : String
  messages : List Message
  user_email : String
  transaction_token : Option String
  options : Option GenerationOptions

/-- Search options (schema.py is not under src/; the concrete fields are
irrelevant to the router claims, which never inspect them). -/
structure SearchOptions where
  limit : Option Int := none
deriving DecidableEq, Repr

/-- Arguments of `SyftLLMRouter.search_documents`. -/
structure SearchArgs where
  user_email : String
  query : String
  options : Option SearchOptions
  transaction_token : Option String

/-- The router: holds at most one chat and one search capability instance,
each `none` unless enabled. The capability implementations are abstracted as
functions into result types χ and σ. -/
structure SyftLLMRouter (χ σ : Type) where
  chat_service : Option (ChatArgs → χ)
  search_service : Option (SearchArgs → σ)

/-- `SyftLLMRouter.__init__`: each service is constructed iff its enable
flag is set in the configuration. -/
def routerInit {χ σ : Type} (enable_chat enable_search : Bool)
    (chat_impl : ChatArgs → χ) (search_impl : SearchArgs → σ) : SyftLLMRouter χ σ :=
  { chat_service := if enable_chat then some chat_impl else none
    search_service := if enable_search then some search_impl else none }

/-- `SyftLLMRouter.generate_chat`: raises `NotImplementedError` (the error the
spec taxonomy names `NotEnabledError`) when no chat service is held, else
delegates. The Bool records whether a Capability Contract method was invoked. -/
def router_generate_chat {χ σ : Type} (r : SyftLLMRouter χ σ) (args : ChatArgs) :
    Except String χ × Bool :=
  match r.chat_service with
  | none => (Except.error "Chat functionality is not enabled", false)
  | some svc => (Except.ok (svc args), true)

/-- `SyftLLMRouter.search_documents`, symmetric to `router_generate_chat`. -/
def router_search_documents {χ σ : Type} (r : SyftLLMRouter χ σ) (args : SearchArgs) :
    Except String σ × Bool :=
  match r.search_service with
  | none => (Except.error "Search functionality is not enabled", false)
  | some svc => (Except.ok (svc args), true)

/-! ## Lifecycle tracker (src/spawn_services.py) -/

/-- Run status of a tracked service. -/
inductive RunStatus where
  | STOPPED
  | RUNNING
  | FAILED
deriving DecidableEq, Repr

/-- Runtime state record of one tracked capability. -/
structure ServiceState where
  status : RunStatus
  url : Option String := none
  port : Option Int := none
  pid : Option Int := none
  started_at : Option String := none
  error : Option String := none
deriving DecidableEq, Repr

/-- One `update_service_state` call: each field is `some v` when the
corresponding keyword argument was passed with value `v`, and `none` when the
keyword was not passed at all. -/
structure ServiceUpdate where
  status : Option RunStatus := none
  url : Option (Option String) := none
  port : Option (Option Int) := none
  pid : Option (Option Int) := none
  started_at : Option (Option String) := none
  error : Option (Option String) := none
deriving DecidableEq, Repr

/-- Modelled from the spec: `update_service_state` lives in config.py, which
is not under src/. Spec section 9 describes the current code as partial
field-by-field mutation, and `_initialize_state` passes every field
explicitly (including `None` values), so an update assigns exactly the
keyword arguments that were passed and leaves the other fields unchanged. -/
def update_service_state (s : ServiceState) (u : ServiceUpdate) : ServiceState :=
  { status := u.status.getD s.status
    url := u.url.getD s.url
    port := u.port.getD s.port
    pid := u.pid.getD s.pid
    started_at := u.started_at.getD s.started_at
    error := u.error.getD s.error }

/-- State owned by the service manager: the router status plus one state
record per tracked capability, keyed by service name. -/
structure ManagerState where
  router_status : RunStatus
  services : List (String × ServiceState)
deriving DecidableEq, Repr

/-- The all-fields-cleared STOPPED record that `_initialize_state` writes
for each enabled service. -/
def initServiceState : ServiceState :=
  { status := RunStatus.STOPPED }

/-- `_initialize_state`: one cleared STOPPED record per enabled capability. -/
def initialize_state (enable_chat enable_search : Bool) : List (String × ServiceState) :=
  (if enable_chat then [("chat", initServiceState)] else [])
    ++ (if enable_search then [("search", initServiceState)] else [])

/-- `cleanup_services` (spawn_services.py:168-181): sets the router status to
STOPPED and calls `update_service_state(name, status=RunStatus.STOPPED)` for
every tracked service — passing only the `status` keyword. -/
def cleanup_services (st : ManagerState) : ManagerState :=
  { router_status := RunStatus.STOPPED
    services := st.services.map
      (fun p => (p.fst, update_service_state p.snd { status := some RunStatus.STOPPED })) }

/-! ## spawn_custom_chat (the chat startup probe) -/

/-- Outcome of the probe body once the API key check has passed: either some
step (service construction or the trial `generate_chat` call) raises an
exception with the given message, or the trial call returns and
`test_response.message.content` is the given string. -/
inductive ProbeOutcome where
  | raises (msg : String)
  | returns (content : String)
deriving DecidableEq, Repr

/-- Message of the `ValueError` raised when the API key is missing. -/
def apiKeyMissingMsg : String :=
  "OPENROUTER_API_KEY is required but not found in environment variables"

/-- Message of the `Exception` raised when the trial response is empty. -/
def emptyResponseMsg : String :=
  "Chat service test failed - no response received"

/-- `spawn_custom_chat` (spawn_services.py:90-135): returns the success flag
and the trace of `update_service_state` calls made on the `"chat"` record,
in order. A missing or empty API key raises inside the `try`, any probe
exception is caught and recorded as FAILED with `error=str(e)`, an empty
trial body raises the fixed test-failed message, and a non-empty trial body
records RUNNING with `url=self.custom_chat_url`. -/
def spawn_custom_chat (api_key : Option String) (custom_chat_url : Option String)
    (probe : ProbeOutcome) : Bool × List (String × ServiceUpdate) :=
  if !(truthyStr api_key) then
    (false, [("chat", { status := some RunStatus.FAILED, error := some (some apiKeyMissingMsg) })])
  else
    match probe with
    | ProbeOutcome.raises msg =>
      (false, [("chat", { status := some RunStatus.FAILED, error := some (some msg) })])
    | ProbeOutcome.returns c =>
      if c ≠ "" then
        (true, [("chat", { status := some RunStatus.RUNNING, url := some custom_chat_url })])
      else
        (false, [("chat", { status := some RunStatus.FAILED, error := some (some emptyResponseMsg) })])

/-- The failure message a given run records (meaningful when the run fails). -/
def spawnFailMsg (api_key : Option String) (probe : ProbeOutcome) : String :=
  if !(truthyStr api_key) then apiKeyMissingMsg
  else
    match probe with
    | ProbeOutcome.raises msg => msg
    | ProbeOutcome.returns _ => emptyResponseMsg

/-! ## Concrete fixtures used by closed theorems -/

/-- A simple user message. -/
def msgHi : Message := { role := Role.USER, content := "hi" }

/-- A truthy (non-empty) provider response dict. -/
def respTruthy : RespData := { hasOtherKeys := true }

/-- The empty provider response dict `{}` (falsy). -/
def respEmptyDict : RespData := {}

/-- A choice whose finish reason is the unknown string `"banana"`. -/
def unknownFrChoice : ChoiceData :=
  { message := some { content := some "hello" }, finish_reason := some "banana" }

/-- A provider response carrying an unknown finish reason. -/
def unknownFrResp : RespData := { choices := some [unknownFrChoice] }

/-! ## Helper lemmas -/

/-- `parseResponse` returns exactly the `query_cost` it was handed. -/
theorem parseResponse_cost (model : String) (c : Rat) (d : RespData) :
    (parseResponse model c d).cost = c := rfl

/-- The payload always carries exactly the converted caller messages. -/
theorem buildPayload_messages (m : String) (msgs : List Message)
    (opts : Option GenerationOptions) :
    (buildPayload m msgs opts).messages
      = msgs.map (fun x => (roleLower x.role, x.content)) := by
  cases opts with
  | none => rfl
  | some o =>
    rcases o with ⟨mt, te, tp, ss⟩
    cases mt <;> cases te <;> cases tp <;> cases ss <;>
      simp [buildPayload, apply_ite Payload.messages]

/-- Branch lemma: priced call, token supplied, upstream returns `content`. -/
theorem generate_chat_eq_priced_token_ok (price : Rat)
    (provider : Payload → Except PyError RespData) (model : String)
    (messages : List Message) (ue : String) (tok : Option String)
    (opts : Option GenerationOptions) (d : RespData)
    (hp : 0 < price) (htok : truthyStr tok = true)
    (hres : provider (buildPayload (validate_model model) messages opts) = Except.ok d) :
    generate_chat (some price) provider model messages ue tok opts =
      (if truthyDict d then
        (Except.ok (parseResponse model price d),
         [Event.openTxn price, Event.providerCall, Event.confirmTxn])
      else
        (Except.ok (parseResponse model 0 d),
         [Event.openTxn price, Event.providerCall])) := by
  simp [generate_chat, hp, htok, hres]

/-- Branch lemma: priced call, token supplied, upstream raises. -/
theorem generate_chat_eq_priced_token_error (price : Rat)
    (provider : Payload → Except PyError RespData) (model : String)
    (messages : List Message) (ue : String) (tok : Option String)
    (opts : Option GenerationOptions) (e : PyError)
    (hp : 0 < price) (htok : truthyStr tok = true)
    (hres : provider (buildPayload (validate_model model) messages opts) = Except.error e) :
    generate_chat (some price) provider model messages ue tok opts =
      (Except.error e, [Event.openTxn price, Event.providerCall]) := by
  simp [generate_chat, hp, htok, hres]

/-- Branch lemma: free call (price not positive). -/
theorem generate_chat_eq_free (price : Rat)
    (provider : Payload → Except PyError RespData) (model : String)
    (messages : List Message) (ue : String) (tok : Option String)
    (opts : Option GenerationOptions)
    (hp : ¬ 0 < price) :
    generate_chat (some price) provider model messages ue tok opts =
      (match provider (buildPayload (validate_model model) messages opts) with
       | Except.error e => (Except.error e, [Event.providerCall])
       | Except.ok content => (Except.ok (parseResponse model 0 content), [Event.providerCall])) := by
  simp [generate_chat, hp]

/-- Invariant: a returned response has nonzero cost only if the trace opened
a transaction for that amount and confirmed it, and the amount is positive. -/
theorem generate_chat_cost_invariant (pricing : Option Rat)
    (provider : Payload → Except PyError RespData) (model : String)
    (messages : List Message) (ue : String) (tok : Option String)
    (opts : Option GenerationOptions) (resp : ChatResponse)
    (hok : (generate_chat pricing provider model messages ue tok opts).fst = Except.ok resp)
    (hc : resp.cost ≠ 0) :
    Event.openTxn resp.cost ∈ (generate_chat pricing provider model messages ue tok opts).snd ∧
    Event.confirmTxn ∈ (generate_chat pricing provider model messages ue tok opts).snd ∧
    0 < resp.cost := by
  match pricing with
  | none => simp [generate_chat] at hok
  | some price =>
    by_cases hp : 0 < price
    · by_cases htok : truthyStr tok = true
      · cases hres : provider (buildPayload (validate_model model) messages opts) with
        | error e =>
          rw [generate_chat_eq_priced_token_error price provider model messages ue tok opts e hp htok hres] at hok
          simp at hok
        | ok d =>
          rw [generate_chat_eq_priced_token_ok price provider model messages ue tok opts d hp htok hres] at hok ⊢
          by_cases hd : truthyDict d = true
          · simp [hd] at hok ⊢
            rw [← hok, parseResponse_cost]
            exact ⟨rfl, hp⟩
          · simp [hd] at hok
            rw [← hok, parseResponse_cost] at hc
            exact absurd rfl hc
      · have htok' : truthyStr tok = false := by
          cases h : truthyStr tok
          · rfl
          · exact absurd h htok
        simp [generate_chat, hp, htok'] at hok
    · rw [generate_chat_eq_free price provider model messages ue tok opts hp] at hok
      cases hres : provider (buildPayload (validate_model model) messages opts) with
      | error e => rw [hres] at hok; simp at hok
      | ok d =>
        rw [hres] at hok
        simp at hok
        rw [← hok, parseResponse_cost] at hc
        exact absurd rfl hc

/-- Is an event a transaction opening? -/
def isOpen : Event → Bool
  | Event.openTxn _ => true
  | _ => false

/-- Is an event a transaction confirmation? -/
def isConfirm : Event → Bool
  | Event.confirmTxn => true
  | _ => false

/-- Claim C1: for every chat call with price > 0 and a transaction token
supplied, if the upstream provider returns a non-empty result, then a
transaction for amount = price is opened and confirmed exactly once and the
returned ChatResponse has cost = price; and on every run whatsoever, a
returned response has nonzero cost only when a transaction for that amount
was opened and confirmed. -/
theorem generate_chat_priced_success_confirms_once (price : Rat)
    (provider : Payload → Except PyError RespData) (model : String)
    (messages : List Message) (ue : String) (tok : Option String)
    (opts : Option GenerationOptions) (d : RespData)
    (hp : 0 < price) (htok : truthyStr tok = true)
    (hres : provider (buildPayload (validate_model model) messages opts) = Except.ok d)
    (hd : truthyDict d = true) :
    (generate_chat (some price) provider model messages ue tok opts).fst
      = Except.ok (parseResponse model price d) ∧
    (parseResponse model price d).cost = price ∧
    (generate_chat (some price) provider model messages ue tok opts).snd
      = [Event.openTxn price, Event.providerCall, Event.confirmTxn] ∧
    (generate_chat (some price) provider model messages ue tok opts).snd.countP isOpen = 1 ∧
    (generate_chat (some price) provider model messages ue tok opts).snd.countP isConfirm = 1 ∧
    (∀ (pricing2 : Option Rat) (provider2 : Payload → Except PyError RespData)
        (model2 : String) (messages2 : List Message) (ue2 : String)
        (tok2 : Option String) (opts2 : Option GenerationOptions) (resp : ChatResponse),
      (generate_chat pricing2 provider2 model2 messages2 ue2 tok2 opts2).fst = Except.ok resp →
      resp.cost ≠ 0 →
      Event.openTxn resp.cost ∈ (generate_chat pricing2 provider2 model2 messages2 ue2 tok2 opts2).snd ∧
      Event.confirmTxn ∈ (generate_chat pricing2 provider2 model2 messages2 ue2 tok2 opts2).snd ∧
      0 < resp.cost) := by
  rw [generate_chat_eq_priced_token_ok price provider model messages ue tok opts d hp htok hres]
  refine ⟨by simp [hd], parseResponse_cost model price d, by simp [hd], by simp [hd]; rfl,
    by simp [hd]; rfl, ?_⟩
  intro pricing2 provider2 model2 messages2 ue2 tok2 opts2 resp hok hc
  exact generate_chat_cost_invariant pricing2 provider2 model2 messages2 ue2 tok2 opts2 resp hok hc

/-- Witness for C1 at price 2, token "abc", a truthy provider result. -/
theorem generate_chat_priced_success_confirms_once_witness :
    (generate_chat (some 2) (fun _ => Except.ok respTruthy) "deepseek-chat" [msgHi]
        "user@example.com" (some "abc") none).fst
      = Except.ok (parseResponse "deepseek-chat" 2 respTruthy) :=
  (generate_chat_priced_success_confirms_once 2 (fun _ => Except.ok respTruthy) "deepseek-chat"
    [msgHi] "user@example.com" (some "abc") none respTruthy (by norm_num) (by decide) rfl
    (by decide)).1

/-- Claim C2: for every chat call with price > 0 and a transaction token
supplied, if the upstream provider call raises, the transaction is never
confirmed and the exception propagates unchanged to the caller. -/
theorem generate_chat_priced_upstream_error_unconfirmed (price : Rat)
    (provider : Payload → Except PyError RespData) (model : String)
    (messages : List Message) (ue : String) (tok : Option String)
    (opts : Option GenerationOptions) (e : PyError)
    (hp : 0 < price) (htok : truthyStr tok = true)
    (hres : provider (buildPayload (validate_model model) messages opts) = Except.error e) :
    (generate_chat (some price) provider model messages ue tok opts).fst = Except.error e ∧
    (generate_chat (some price) provider model messages ue tok opts).snd
      = [Event.openTxn price, Event.providerCall] ∧
    Event.confirmTxn ∉ (generate_chat (some price) provider model messages ue tok opts).snd := by
  rw [generate_chat_eq_priced_token_error price provider model messages ue tok opts e hp htok hres]
  exact ⟨rfl, rfl, by simp⟩

/-- Witness for C2 with a provider that raises a request exception. -/
theorem generate_chat_priced_upstream_error_unconfirmed_witness :
    (generate_chat (some 2) (fun _ => Except.error (PyError.requestException "timeout"))
        "deepseek-chat" [msgHi] "user@example.com" (some "abc") none).fst
      = Except.error (PyError.requestException "timeout") :=
  (generate_chat_priced_upstream_error_unconfirmed 2
    (fun _ => Except.error (PyError.requestException "timeout")) "deepseek-chat" [msgHi]
    "user@example.com" (some "abc") none (PyError.requestException "timeout") (by norm_num)
    (by decide) rfl).1

/-- Claim C3: for every chat call with price > 0 and no transaction token,
the call fails with the payment-required error (the ValueError the spec
names PaymentRequiredError) before any upstream call is attempted, and no
transaction is opened. -/
theorem generate_chat_priced_no_token_payment_required (price : Rat)
    (provider : Payload → Except PyError RespData) (model : String)
    (messages : List Message) (ue : String) (opts : Option GenerationOptions)
    (hp : 0 < price) :
    generate_chat (some price) provider model messages ue none opts
      = (Except.error (PyError.paymentRequired tokenRequiredMsg), []) ∧
    Event.providerCall ∉ (generate_chat (some price) provider model messages ue none opts).snd ∧
    (∀ a : Rat, Event.openTxn a ∉ (generate_chat (some price) provider model messages ue none opts).snd) := by
  have h1 : generate_chat (some price) provider model messages ue none opts
      = (Except.error (PyError.paymentRequired tokenRequiredMsg), []) := by
    simp [generate_chat, hp, truthyStr]
  exact ⟨h1, by rw [h1]; simp, fun a => by rw [h1]; simp⟩

/-- Witness for C3 at price 2 and no token. -/
theorem generate_chat_priced_no_token_payment_required_witness :
    generate_chat (some 2) (fun _ => Except.ok respTruthy) "deepseek-chat" [msgHi]
        "user@example.com" none none
      = (Except.error (PyError.paymentRequired tokenRequiredMsg), []) :=
  (generate_chat_priced_no_token_payment_required 2 (fun _ => Except.ok respTruthy)
    "deepseek-chat" [msgHi] "user@example.com" none (by norm_num)).1

/-- Claim C10: for every chat call with price > 0 and a transaction token
supplied, if the upstream provider returns without raising but the result is
empty (a falsy dict), generate_chat does not raise: the transaction stays
unconfirmed and a ChatResponse with cost = 0 is returned. -/
theorem generate_chat_priced_empty_result_cost_zero (price : Rat)
    (provider : Payload → Except PyError RespData) (model : String)
    (messages : List Message) (ue : String) (tok : Option String)
    (opts : Option GenerationOptions) (d : RespData)
    (hp : 0 < price) (htok : truthyStr tok = true)
    (hres : provider (buildPayload (validate_model model) messages opts) = Except.ok d)
    (hd : truthyDict d = false) :
    (generate_chat (some price) provider model messages ue tok opts).fst
      = Except.ok (parseResponse model 0 d) ∧
    (parseResponse model 0 d).cost = 0 ∧
    (generate_chat (some price) provider model messages ue tok opts).snd
      = [Event.openTxn price, Event.providerCall] ∧
    Event.confirmTxn ∉ (generate_chat (some price) provider model messages ue tok opts).snd := by
  rw [generate_chat_eq_priced_token_ok price provider model messages ue tok opts d hp htok hres]
  refine ⟨by simp [hd], parseResponse_cost model 0 d, by simp [hd], by simp [hd]⟩

/-- Witness for C10 at price 2, token "abc", empty-dict provider result. -/
theorem generate_chat_priced_empty_result_cost_zero_witness :
    (generate_chat (some 2) (fun _ => Except.ok respEmptyDict) "deepseek-chat" [msgHi]
        "user@example.com" (some "abc") none).fst
      = Except.ok (parseResponse "deepseek-chat" 0 respEmptyDict) :=
  (generate_chat_priced_empty_result_cost_zero 2 (fun _ => Except.ok respEmptyDict)
    "deepseek-chat" [msgHi] "user@example.com" (some "abc") none respEmptyDict (by norm_num)
    (by decide) rfl (by decide)).1

/-- Claim C4, counterexample: a free call with an empty messages list does
not fail with a validation error — it runs the upstream call and returns a
normal response. This refutes the claim that generate_chat raises
ValidationError before any upstream call when messages is empty. -/
theorem generate_chat_empty_messages_no_validation_cex :
    generate_chat (some 0) (fun _ => Except.ok respTruthy) "deepseek-chat" [] "user@example.com"
        none none
      = (Except.ok (parseResponse "deepseek-chat" 0 respTruthy), [Event.providerCall]) ∧
    (parseResponse "deepseek-chat" 0 respTruthy).cost = 0 :=
  ⟨rfl, rfl⟩

/-- Claim C4, amended: generate_chat performs no emptiness validation on the
messages list; whenever the pricing gate passes (the price is not positive,
or a truthy token is supplied), the upstream provider call is attempted with
the empty converted message list. -/
theorem generate_chat_empty_messages_proceeds (price : Rat)
    (provider : Payload → Except PyError RespData) (model : String) (ue : String)
    (tok : Option String) (opts : Option GenerationOptions)
    (hreach : 0 < price → truthyStr tok = true) :
    Event.providerCall ∈ (generate_chat (some price) provider model [] ue tok opts).snd ∧
    (buildPayload (validate_model model) [] opts).messages = [] := by
  constructor
  · by_cases hp : 0 < price
    · have htok := hreach hp
      cases hres : provider (buildPayload (validate_model model) [] opts) with
      | error e =>
        rw [generate_chat_eq_priced_token_error price provider model [] ue tok opts e hp htok hres]
        simp
      | ok d =>
        rw [generate_chat_eq_priced_token_ok price provider model [] ue tok opts d hp htok hres]
        by_cases hd : truthyDict d = true <;> simp [hd]
    · rw [generate_chat_eq_free price provider model [] ue tok opts hp]
      cases provider (buildPayload (validate_model model) [] opts) <;> simp
  · rw [buildPayload_messages]
    rfl

/-- Witness for the amended C4 at price 0 with no token. -/
theorem generate_chat_empty_messages_proceeds_witness :
    Event.providerCall ∈ (generate_chat (some 0) (fun _ => Except.ok respTruthy) "deepseek-chat"
      [] "user@example.com" none none).snd :=
  (generate_chat_empty_messages_proceeds 0 (fun _ => Except.ok respTruthy) "deepseek-chat"
    "user@example.com" none none (by intro h; exact absurd h (by norm_num))).1

/-- Claim C5: the pricing property returns 0 when the metadata file is
missing, but when the file exists without a CHAT entry the property falls
off the end of the function and returns None instead of 0, and the next
`self.pricing > 0` comparison in generate_chat raises a TypeError — the
code contradicts its own `-> float` annotation and the lenient-default
intent. Evaluated here at a metadata file holding only a SEARCH entry. -/
theorem pricing_missing_chat_entry_type_error :
    chat_pricing none = some 0 ∧
    chat_pricing (some [{ type := RouterServiceType.SEARCH, pricing := 1 }]) = none ∧
    generate_chat (chat_pricing (some [{ type := RouterServiceType.SEARCH, pricing := 1 }]))
        (fun _ => Except.ok respTruthy) "deepseek-chat" [msgHi] "user@example.com" (some "abc")
        none
      = (Except.error (PyError.typeError pricingNoneTypeErrorMsg), []) :=
  ⟨rfl, rfl, rfl⟩

/-- Claim C8: a call through the router to a disabled capability fails with
the not-enabled error (NotImplementedError; the spec names it
NotEnabledError) and no Capability Contract method is invoked, for chat and
search symmetrically, including routers built by __init__ with the enable
flag off. -/
theorem router_disabled_not_enabled_error {χ σ : Type} (r : SyftLLMRouter χ σ)
    (args : ChatArgs) (sargs : SearchArgs) :
    (r.chat_service = none →
      router_generate_chat r args = (Except.error "Chat functionality is not enabled", false)) ∧
    (r.search_service = none →
      router_search_documents r sargs
        = (Except.error "Search functionality is not enabled", false)) ∧
    (∀ (enable_search : Bool) (ci : ChatArgs → χ) (si : SearchArgs → σ),
      router_generate_chat (routerInit false enable_search ci si) args
        = (Except.error "Chat functionality is not enabled", false)) ∧
    (∀ (enable_chat : Bool) (ci : ChatArgs → χ) (si : SearchArgs → σ),
      router_search_documents (routerInit enable_chat false ci si) sargs
        = (Except.error "Search functionality is not enabled", false)) := by
  refine ⟨fun h => ?_, fun h => ?_, fun es ci si => ?_, fun ec ci si => ?_⟩
  · simp [router_generate_chat, h]
  · simp [router_search_documents, h]
  · simp [router_generate_chat, routerInit]
  · simp [router_search_documents, routerInit]

/-- A router with both capabilities disabled. -/
def disabledRouter : SyftLLMRouter Nat Nat :=
  { chat_service := none, search_service := none }

/-- Concrete chat arguments. -/
def chatArgs0 : ChatArgs :=
  { model := "deepseek-chat", messages := [msgHi], user_email := "user@example.com",
    transaction_token := none, options := none }

/-- Concrete search arguments. -/
def searchArgs0 : SearchArgs :=
  { user_email := "user@example.com", query := "q", options := none,
    transaction_token := none }

/-- Witness for C8 on a router with both capabilities disabled. -/
theorem router_disabled_not_enabled_error_witness :
    router_generate_chat disabledRouter chatArgs0
      = (Except.error "Chat functionality is not enabled", false) :=
  (router_disabled_not_enabled_error disabledRouter chatArgs0 searchArgs0).1 rfl

/-- Claim C9, counterexample: the unknown finish-reason string "banana" maps
to None (absent), not to an UNSPECIFIED value, while the call still returns
normally — refuting the claim that unknown strings map to "unspecified". -/
theorem map_finish_reason_unknown_none_cex :
    map_finish_reason "banana" = none ∧
    (parseResponse "deepseek-chat" 0 unknownFrResp).finish_reason = none ∧
    (parseResponse "deepseek-chat" 0 unknownFrResp).finish_reason
      ≠ some FinishReason.UNSPECIFIED ∧
    (generate_chat (some 0) (fun _ => Except.ok unknownFrResp) "deepseek-chat" [msgHi]
        "user@example.com" none none).fst
      = Except.ok (parseResponse "deepseek-chat" 0 unknownFrResp) :=
  ⟨rfl, rfl, by decide, rfl⟩

/-- Claim C9, amended: for every finish-reason string from the provider that
is none of the known values (stop, length, content_filter), the returned
ChatResponse carries no finish reason (None) rather than the call failing;
missing usage fields default to zeros. -/
theorem finish_reason_unknown_absent_usage_defaults (s : String)
    (hs1 : s ≠ "stop") (hs2 : s ≠ "length") (hs3 : s ≠ "content_filter")
    (model : String) (c : Rat) (d : RespData) (ch : ChoiceData) (rest : List ChoiceData)
    (hch : d.choices = some (ch :: rest)) (hfr : ch.finish_reason = some s)
    (provider : Payload → Except PyError RespData) (messages : List Message) (ue : String)
    (hres : provider (buildPayload (validate_model model) messages none) = Except.ok d) :
    map_finish_reason s = none ∧
    (parseResponse model c d).finish_reason = none ∧
    (generate_chat (some 0) provider model messages ue none none).fst
      = Except.ok (parseResponse model 0 d) ∧
    (∀ d2 : RespData, d2.usage = none →
      (parseResponse model c d2).usage = (⟨0, 0, 0⟩ : ChatUsage)) := by
  have hmap : map_finish_reason s = none := by
    simp [map_finish_reason, hs1, hs2, hs3]
  refine ⟨hmap, ?_, ?_, ?_⟩
  · by_cases hse : s = ""
    · simp [parseResponse, hch, hfr, hse]
    · simp [parseResponse, hch, hfr, hse, hmap]
  · have hp : ¬ (0 : Rat) < 0 := by norm_num
    rw [generate_chat_eq_free 0 provider model messages ue none none hp, hres]
  · intro d2 h2
    simp [parseResponse, h2]

/-- Witness for the amended C9 at the unknown string "banana". -/
theorem finish_reason_unknown_absent_usage_defaults_witness :
    (parseResponse "deepseek-chat" 0 unknownFrResp).finish_reason = none :=
  (finish_reason_unknown_absent_usage_defaults "banana" (by decide) (by decide) (by decide)
    "deepseek-chat" 0 unknownFrResp unknownFrChoice [] rfl rfl
    (fun _ => Except.ok unknownFrResp) [msgHi] "user@example.com" rfl).2.1

/-! ## Lifecycle claims -/

/-- A service state with every field populated, as left behind by a failed
probe followed by partial updates. -/
def dirtyState : ServiceState :=
  { status := RunStatus.FAILED, url := some "http://localhost:1234", port := some 1234,
    pid := some 42, started_at := some "2024-01-01T00:00:00", error := some "boom" }

/-- A manager state tracking one chat capability with populated fields. -/
def st0 : ManagerState :=
  { router_status := RunStatus.RUNNING, services := [("chat", dirtyState)] }

/-- Claim C6, counterexample: cleanup passes only `status=STOPPED` to
`update_service_state`, so a tracked capability whose error (and url, port,
pid, started_at) fields are populated keeps them after cleanup — they are
not cleared, refuting the claim. -/
theorem cleanup_does_not_clear_error_cex :
    (cleanup_services st0).services
      = [("chat", { dirtyState with status := RunStatus.STOPPED })] ∧
    ({ dirtyState with status := RunStatus.STOPPED } : ServiceState).error = some "boom" ∧
    ({ dirtyState with status := RunStatus.STOPPED } : ServiceState).url
      = some "http://localhost:1234" :=
  ⟨rfl, rfl, rfl⟩

/-- Applying the status-only STOPPED update a second time changes nothing. -/
theorem cleanup_services_idem_aux (l : List (String × ServiceState)) :
    (l.map (fun p => (p.1, update_service_state p.2 { status := some RunStatus.STOPPED }))).map
        (fun p => (p.1, update_service_state p.2 { status := some RunStatus.STOPPED }))
      = l.map (fun p => (p.1, update_service_state p.2 { status := some RunStatus.STOPPED })) := by
  induction l with
  | nil => rfl
  | cons a t ih =>
    simp only [List.map_cons]
    rw [ih]
    rfl

/-- The status-only STOPPED update keeps every non-status field. -/
theorem cleanup_services_fields_aux (l : List (String × ServiceState)) :
    (l.map (fun p => (p.1, update_service_state p.2 { status := some RunStatus.STOPPED }))).map
        (fun p => (p.1, p.2.url, p.2.port, p.2.pid, p.2.started_at, p.2.error))
      = l.map (fun p => (p.1, p.2.url, p.2.port, p.2.pid, p.2.started_at, p.2.error)) := by
  induction l with
  | nil => rfl
  | cons a t ih =>
    simp only [List.map_cons]
    rw [ih]
    rfl

/-- Claim C6, amended: cleanup is idempotent — after one or two invocations
every tracked capability has status STOPPED (both times) and the router
status is STOPPED, but the url, port, pid, started_at and error fields are
left unchanged rather than cleared. -/
theorem cleanup_idempotent_status_stopped (st : ManagerState) :
    (∀ p ∈ (cleanup_services st).services, p.2.status = RunStatus.STOPPED) ∧
    (∀ p ∈ (cleanup_services (cleanup_services st)).services, p.2.status = RunStatus.STOPPED) ∧
    cleanup_services (cleanup_services st) = cleanup_services st ∧
    (cleanup_services st).router_status = RunStatus.STOPPED ∧
    (cleanup_services st).services.map
        (fun p => (p.1, p.2.url, p.2.port, p.2.pid, p.2.started_at, p.2.error))
      = st.services.map
        (fun p => (p.1, p.2.url, p.2.port, p.2.pid, p.2.started_at, p.2.error)) := by
  refine ⟨?_, ?_, ?_, rfl, ?_⟩
  · intro p hp
    simp only [cleanup_services, List.mem_map] at hp
    obtain ⟨q, _, rfl⟩ := hp
    rfl
  · intro p hp
    simp only [cleanup_services, List.mem_map, List.map_map] at hp
    obtain ⟨q, _, rfl⟩ := hp
    rfl
  · simp only [cleanup_services]
    rw [cleanup_services_idem_aux]
  · simp only [cleanup_services]
    exact cleanup_services_fields_aux st.services

/-- Witness for the amended C6 on a populated single-service state. -/
theorem cleanup_idempotent_status_stopped_witness :
    ({ dirtyState with status := RunStatus.STOPPED } : ServiceState).status
      = RunStatus.STOPPED :=
  (cleanup_idempotent_status_stopped st0).1
    ("chat", { dirtyState with status := RunStatus.STOPPED }) (by decide)

/-- The FAILED update `update_service_state("chat", status=FAILED, error=str(e))`. -/
def failUpdate (msg : String) : ServiceUpdate :=
  { status := some RunStatus.FAILED, error := some (some msg) }

/-- Run characterization of the chat startup probe: either the run fails and
records exactly one FAILED update carrying the failure message, or the trial
body was non-empty and the run records exactly one RUNNING update. -/
theorem spawn_run_cases (api_key custom_chat_url : Option String) (probe : ProbeOutcome) :
    spawn_custom_chat api_key custom_chat_url probe
      = (false, [("chat", failUpdate (spawnFailMsg api_key probe))]) ∨
    (∃ c, probe = ProbeOutcome.returns c ∧ c ≠ "" ∧ truthyStr api_key = true ∧
      spawn_custom_chat api_key custom_chat_url probe
        = (true, [("chat", { status := some RunStatus.RUNNING,
                             url := some custom_chat_url })])) := by
  by_cases hk : truthyStr api_key = true
  · cases probe with
    | raises msg =>
      left
      simp [spawn_custom_chat, spawnFailMsg, hk, failUpdate]
    | returns c =>
      by_cases hc : c = ""
      · left
        subst hc
        simp [spawn_custom_chat, spawnFailMsg, hk, failUpdate]
      · right
        exact ⟨c, rfl, hc, hk, by simp [spawn_custom_chat, hk, hc]⟩
  · left
    have hk' : truthyStr api_key = false := by
      cases h : truthyStr api_key
      · rfl
      · exact absurd h hk
    simp [spawn_custom_chat, spawnFailMsg, hk', failUpdate]

/-- Claim C7, counterexample: when the probe raises an exception whose
message is empty, the capability ends FAILED but with an empty error string,
refuting the non-empty-error part of the claim. -/
theorem spawn_probe_empty_exception_message_cex :
    spawn_custom_chat (some "k") none (ProbeOutcome.raises "")
      = (false, [("chat", { status := some RunStatus.FAILED, error := some (some "") })]) ∧
    (update_service_state initServiceState
        { status := some RunStatus.FAILED, error := some (some "") }).status
      = RunStatus.FAILED ∧
    (update_service_state initServiceState
        { status := some RunStatus.FAILED, error := some (some "") }).error = some "" :=
  ⟨rfl, rfl, rfl⟩

/-- Claim C7, amended: every failing probe run records exactly one update,
which puts the capability in FAILED with error set to the failure message
(so the state was never set to RUNNING at any point of the run); the message
is the raised exception message, which is non-empty except when that
exception message is itself empty — in particular the empty-trial-body case
always yields the fixed non-empty test-failed message; and across all runs,
a RUNNING update occurs only when the trial body was non-empty. -/
theorem spawn_probe_failure_failed_never_running (api_key custom_chat_url : Option String)
    (probe : ProbeOutcome)
    (hfail : (spawn_custom_chat api_key custom_chat_url probe).fst = false) :
    (spawn_custom_chat api_key custom_chat_url probe).snd
      = [("chat", failUpdate (spawnFailMsg api_key probe))] ∧
    (∀ s : ServiceState,
      (update_service_state s (failUpdate (spawnFailMsg api_key probe))).status
          = RunStatus.FAILED ∧
      (update_service_state s (failUpdate (spawnFailMsg api_key probe))).error
          = some (spawnFailMsg api_key probe)) ∧
    (∀ u ∈ (spawn_custom_chat api_key custom_chat_url probe).snd,
      u.2.status ≠ some RunStatus.RUNNING) ∧
    (spawnFailMsg api_key probe = "" →
      probe = ProbeOutcome.raises "" ∧ truthyStr api_key = true) ∧
    (∀ (ak u2 : Option String) (pr : ProbeOutcome) (upd : String × ServiceUpdate),
      upd ∈ (spawn_custom_chat ak u2 pr).snd → upd.2.status = some RunStatus.RUNNING →
      ∃ c, pr = ProbeOutcome.returns c ∧ c ≠ "" ∧ (spawn_custom_chat ak u2 pr).fst = true) := by
  have hglobal : ∀ (ak u2 : Option String) (pr : ProbeOutcome) (upd : String × ServiceUpdate),
      upd ∈ (spawn_custom_chat ak u2 pr).snd → upd.2.status = some RunStatus.RUNNING →
      ∃ c, pr = ProbeOutcome.returns c ∧ c ≠ "" ∧ (spawn_custom_chat ak u2 pr).fst = true := by
    intro ak u2 pr upd hmem hrun
    rcases spawn_run_cases ak u2 pr with h | ⟨c, hpr, hc, _, h⟩
    · rw [h] at hmem
      simp at hmem
      rw [hmem] at hrun
      simp [failUpdate] at hrun
    · exact ⟨c, hpr, hc, by rw [h]⟩
  rcases spawn_run_cases api_key custom_chat_url probe with h | ⟨c, hpr, hc, hk, h⟩
  · refine ⟨by rw [h], fun s => ⟨rfl, rfl⟩, ?_, ?_, hglobal⟩
    · intro u hmem
      rw [h] at hmem
      simp at hmem
      rw [hmem]
      simp [failUpdate]
    · intro hemp
      by_cases hk2 : truthyStr api_key = true
      · cases probe with
        | raises msg =>
          simp [spawnFailMsg, hk2] at hemp
          subst hemp
          exact ⟨rfl, hk2⟩
        | returns c2 =>
          simp [spawnFailMsg, hk2] at hemp
          exact absurd hemp (by decide)
      · have hk' : truthyStr api_key = false := by
          cases hx : truthyStr api_key
          · rfl
          · exact absurd hx hk2
        simp [spawnFailMsg, hk'] at hemp
        exact absurd hemp (by decide)
  · rw [h] at hfail
    simp at hfail

/-- Witness for the amended C7: probe returns an empty trial body. -/
theorem spawn_probe_failure_failed_never_running_witness :
    (spawn_custom_chat (some "k") none (ProbeOutcome.returns "")).snd
      = [("chat", failUpdate (spawnFailMsg (some "k") (ProbeOutcome.returns "")))] :=
  (spawn_probe_failure_failed_never_running (some "k") none (ProbeOutcome.returns "")
    (by decide)).1

end RouterSpec
